import Mathlib

/-!
# RiskRadar event exporter — verification development

Shallow embedding of `app/export_events.py` (the RiskRadar event data
exporter) and proofs about it.  Python floats are modelled as rationals
(`ℚ`), pandas timestamps as a calendar-day ordinal plus a time-of-day
fraction, and Python's heterogeneously typed values (dict entries that may
be numbers, strings or `None`) as explicit inductive types.  Fallible
Python operations (`float(...)` on a non-numeric value) are modelled with
`Except`.
-/

/-- Round half to even on rationals, modelling Python's `round` and pandas'
`.round()` (both use banker's rounding). -/
def roundHalfEven (x : ℚ) : ℤ :=
  let f := ⌊x⌋
  let r := x - (f : ℚ)
  if r < 1/2 then f
  else if 1/2 < r then f + 1
  else if Even f then f else f + 1

/-- Model of `round(x, d)`: round to `d` decimal places (half to even). -/
def roundTo (x : ℚ) (d : ℕ) : ℚ :=
  (roundHalfEven (x * 10 ^ d) : ℚ) / 10 ^ d

/-- Lower-case a single ASCII character, modelling Python's `str.lower`. -/
def lowerChar (c : Char) : Char :=
  if c.isUpper then Char.ofNat (c.toNat + 32) else c

/-- Model of Python's `str.lower()`. -/
def strLower (s : String) : String := ⟨s.data.map lowerChar⟩

/-- Model of Python's `str.strip()`: drop leading and trailing whitespace. -/
def strTrim (s : String) : String :=
  ⟨((s.data.dropWhile Char.isWhitespace).reverse.dropWhile Char.isWhitespace).reverse⟩

/-- Python digit-string value (digits already guaranteed by callers). -/
def digitsToNat (cs : List Char) : ℕ :=
  cs.foldl (fun a c => 10 * a + (c.toNat - 48)) 0

/-- Unsigned part of Python's `float(str)` parse: digits with an optional
single decimal point (`"1"`, `"1."`, `".5"`, `"1.5"`). -/
def parseUnsigned (cs : List Char) : Option ℚ :=
  let ip := cs.takeWhile Char.isDigit
  let rest := cs.dropWhile Char.isDigit
  match rest with
  | [] => if ip.isEmpty then none else some (digitsToNat ip : ℚ)
  | '.' :: fp =>
      if fp.all Char.isDigit ∧ (¬ ip.isEmpty ∨ ¬ fp.isEmpty) then
        some ((digitsToNat ip : ℚ) + (digitsToNat fp : ℚ) / (10 : ℚ) ^ fp.length)
      else none
  | _ => none

/-- Model of Python's `float(s)` for strings: optional sign, decimal digits,
optional fractional part, surrounding whitespace ignored.  `none` models a
`ValueError`.  (Exponent forms and the words inf/nan are not modelled; no
claim depends on them.) -/
def parseFloat (s : String) : Option ℚ :=
  match (strTrim s).data with
  | [] => none
  | '+' :: cs => parseUnsigned cs
  | '-' :: cs => (parseUnsigned cs).map (fun q => -q)
  | cs => parseUnsigned cs

/-- The source constant `CONFIDENCE_THRESHOLDS["nominal"]`. -/
def CONFIDENCE_THRESHOLDS_nominal : ℚ := 30

/-- The source constant `CONFIDENCE_THRESHOLDS["high"]`. -/
def CONFIDENCE_THRESHOLDS_high : ℚ := 80

/-- The `CONFIDENCE_LABELS` dict `{0:"low",1:"nominal",2:"high"}`.  A key
outside the dict would make pandas `.map` produce NaN, which `str()`
renders as `"nan"`; ranks are in fact always ≤ 2. -/
def CONFIDENCE_LABELS : ℕ → String
  | 0 => "low"
  | 1 => "nominal"
  | 2 => "high"
  | _ => "nan"

/-- A Python value handed to `_confidence_rank`: `None`, a float NaN,
a string, a number, or any other object (on which `float()` raises
`TypeError`). -/
inductive ConfInput
  | pyNone
  | pyNaN
  | pyStr (s : String)
  | pyNum (q : ℚ)
  | pyOther
  deriving DecidableEq

/-- Numeric branch of `_confidence_rank`: `score >= 80 → 2`,
`score >= 30 → 1`, else `0`. -/
def rankOfScore (q : ℚ) : ℕ :=
  if CONFIDENCE_THRESHOLDS_high ≤ q then 2
  else if CONFIDENCE_THRESHOLDS_nominal ≤ q then 1
  else 0

/-- The source function `_confidence_rank`: `None`/NaN → 0; strings matched
case-insensitively against high/h, nominal/n, low/l, otherwise parsed as a
float (parse failure → 0); numbers ranked by threshold; any other object
(where `float()` raises `TypeError`, caught) → 0. -/
def _confidence_rank : ConfInput → ℕ
  | .pyNone => 0
  | .pyNaN => 0
  | .pyStr s =>
      let normalized := strLower (strTrim s)
      if normalized = "high" ∨ normalized = "h" then 2
      else if normalized = "nominal" ∨ normalized = "n" then 1
      else if normalized = "low" ∨ normalized = "l" then 0
      else
        match parseFloat normalized with
        | some q => rankOfScore q
        | none => 0
  | .pyNum q => rankOfScore q
  | .pyOther => 0

/-- An `_format_date` input: `None`, a float NaN, a `datetime` (split into its
calendar-date ISO string and its time-of-day part, so that
`value.date().isoformat()` is the first component and `value.isoformat()`
is the two joined by `"T"`), any other object exposing `isoformat()`
(modelled by the string it returns), or any other value (modelled by its
`str()` rendering). -/
inductive DateInput
  | pyNone
  | pyNaN
  | pyDatetime (dateIso : String) (timeIso : String)
  | pyIsoObj (iso : String)
  | pyOther (str : String)
  deriving DecidableEq

/-- The source function `_format_date`: `None`/NaN → `""`; a `datetime` →
`value.date().isoformat()` (only the calendar date, time-of-day dropped);
anything with `isoformat` → that ISO string; otherwise `str(value)`. -/
def _format_date : DateInput → String
  | .pyNone => ""
  | .pyNaN => ""
  | .pyDatetime dateIso _ => dateIso
  | .pyIsoObj iso => iso
  | .pyOther s => s

/-- Grid snap from the source: `(coord * 10).round() / 10`. -/
def gridSnap (x : ℚ) : ℚ := (roundHalfEven (x * 10) : ℚ) / 10

/-- A pandas timestamp, as a calendar-day ordinal plus a time-of-day
fraction; `.dt.date` keeps only `day`. -/
structure Timestamp where
  day : ℤ
  tod : ℚ
  deriving DecidableEq

/-- Chronological (day-major, then time-of-day) order on timestamps. -/
def tsLe (a b : Timestamp) : Prop :=
  a.day < b.day ∨ (a.day = b.day ∧ a.tod ≤ b.tod)

instance (a b : Timestamp) : Decidable (tsLe a b) := by
  unfold tsLe; infer_instance

/-- Binary minimum of timestamps. -/
def tsMin (a b : Timestamp) : Timestamp := if tsLe a b then a else b

/-- Binary maximum of timestamps. -/
def tsMax (a b : Timestamp) : Timestamp := if tsLe a b then b else a

/-- The `min` aggregation over an `acq_date` column. -/
def tsListMin : List Timestamp → Option Timestamp
  | [] => none
  | t :: ts => some (ts.foldl tsMin t)

/-- The `max` aggregation over an `acq_date` column. -/
def tsListMax : List Timestamp → Option Timestamp
  | [] => none
  | t :: ts => some (ts.foldl tsMax t)

/-- One row of the FIRMS table (`firms_client._data`). -/
structure FireDetection where
  latitude : ℚ
  longitude : ℚ
  acq_date : Timestamp
  brightness : ℚ
  frp : Option ℚ
  confidence : ConfInput
  deriving DecidableEq

/-- One aggregated fire event dict as built in `export_fire_events`.  The
two date fields hold the calendar-day ordinal emitted by `_format_date`
(which drops a timestamp's time-of-day). -/
structure FireEventRecord where
  lat : ℚ
  lon : ℚ
  date : ℤ
  date_first : ℤ
  brightness : ℚ
  brightness_avg : ℚ
  frp : Option ℚ
  count : ℕ
  confidence : String
  deriving DecidableEq

/-- Grid-cell key `(grid_lat, grid_lon)` of a detection. -/
def gridKey (d : FireDetection) : ℚ × ℚ := (gridSnap d.latitude, gridSnap d.longitude)

/-- The recency filter: keep rows with `acq_date.dt.date >= cutoff_date`
where `cutoff_date = (utcnow() - timedelta(days)).date()`; `today` stands
for the current UTC calendar day. -/
def recentFires (rows : List FireDetection) (today : ℤ) (days : ℕ) : List FireDetection :=
  rows.filter (fun d => decide (today - days ≤ d.acq_date.day))

/-- Reduction of one grid-cell group, mirroring the `groupby(...).agg` dict
and the row-to-dict loop: max/mean/count of brightness, max of `frp`
(pandas `max` skips nulls; all-null gives null), min/max of `acq_date`,
max confidence rank mapped through `CONFIDENCE_LABELS`, and the final
roundings.  The `getD` defaults are never reached: every group the
pipeline builds is non-empty. -/
def mkFireRecord (k : ℚ × ℚ) (members : List FireDetection) : FireEventRecord where
  lat := roundTo k.1 1
  lon := roundTo k.2 1
  date := ((tsListMax (members.map (·.acq_date))).getD ⟨0, 0⟩).day
  date_first := ((tsListMin (members.map (·.acq_date))).getD ⟨0, 0⟩).day
  brightness := roundTo (((members.map (·.brightness)).max?).getD 0) 1
  brightness_avg := roundTo ((members.map (·.brightness)).sum / (members.length : ℚ)) 1
  frp := ((members.filterMap (·.frp)).max?).map (fun m => roundTo m 1)
  count := members.length
  confidence := CONFIDENCE_LABELS (((members.map (fun d => _confidence_rank d.confidence)).max?).getD 0)

/-- The source function `export_fire_events`.  `data` is `firms_client._data`
(`none` models `_data is None`); `today` is the current UTC calendar day.
Groups are enumerated by the distinct grid keys of the filtered rows. -/
def export_fire_events (data : Option (List FireDetection)) (today : ℤ) (days : ℕ) :
    List FireEventRecord :=
  match data with
  | none => []
  | some rows =>
    if rows.isEmpty then []
    else
      let recent := recentFires rows today days
      if recent.isEmpty then []
      else
        let keys := (recent.map gridKey).dedup
        keys.map (fun k => mkFireRecord k (recent.filter (fun d => decide (gridKey d = k))))

/-- A value stored under a numeric key of a raw USGS earthquake dict:
JSON null (`None`), a number, or a string. -/
inductive PyNum
  | null
  | num (q : ℚ)
  | str (s : String)
  deriving DecidableEq

/-- The exception `float(value)` raises: `TypeError` on `None`,
`ValueError` on an unparsable string. -/
inductive PyErr
  | typeError
  | valueError
  deriving DecidableEq

/-- Python's `float(value)` on a dict entry. -/
def pyFloat : PyNum → Except PyErr ℚ
  | .null => .error .typeError
  | .num q => .ok q
  | .str s =>
      match parseFloat s with
      | some q => .ok q
      | none => .error .valueError

/-- One raw earthquake dict from the USGS client; `none` on a field means
the key is absent (so `dict.get` supplies the default), while
`some .null` means the key is present holding `None`. -/
structure RawQuake where
  latitude : Option PyNum
  longitude : Option PyNum
  time : Option String
  mag : Option PyNum
  depth_km : Option PyNum
  place : Option String
  type : Option String
  deriving DecidableEq

/-- One earthquake event dict as built in `export_earthquake_events`. -/
structure EarthquakeEventRecord where
  lat : ℚ
  lon : ℚ
  date : String
  magnitude : ℚ
  depth : ℚ
  place : String
  type : String
  deriving DecidableEq

/-- The loop body of `export_earthquake_events`: `float` casts with
`dict.get` defaults, rounding, and string defaults.  `Except` models the
fact that `float(...)` on a present null/unparsable value raises. -/
def normalizeQuake (quake : RawQuake) : Except PyErr EarthquakeEventRecord := do
  let lat ← pyFloat (quake.latitude.getD (.num 0))
  let lon ← pyFloat (quake.longitude.getD (.num 0))
  let mag ← pyFloat (quake.mag.getD (.num 0))
  let depth ← pyFloat (quake.depth_km.getD (.num 0))
  return { lat := roundTo lat 4
           lon := roundTo lon 4
           date := quake.time.getD ""
           magnitude := roundTo mag 1
           depth := roundTo depth 1
           place := quake.place.getD "Unknown"
           type := quake.type.getD "earthquake" }

/-- The source function `export_earthquake_events`: empty input short-circuits
to `[]`; otherwise each raw record is converted in order (the provider
query itself is out of scope; `quakes_raw` is its result). -/
def export_earthquake_events (quakes_raw : List RawQuake) :
    Except PyErr (List EarthquakeEventRecord) :=
  if quakes_raw.isEmpty then .ok []
  else quakes_raw.mapM normalizeQuake

/-- A `{min: _, max: _}` statistics entry. -/
structure RangeStat where
  min : ℚ
  max : ℚ
  deriving DecidableEq

/-- The `statistics` object of the export document. -/
structure Statistics where
  total_fires : ℕ
  total_earthquakes : ℕ
  fire_brightness_range : RangeStat
  earthquake_magnitude_range : RangeStat
  deriving DecidableEq

/-- The export document assembled in `main` (provenance timestamps are out
of scope; the two record lists and the statistics are modelled). -/
structure ExportDocument where
  statistics : Statistics
  fires : List FireEventRecord
  earthquakes : List EarthquakeEventRecord
  deriving DecidableEq

/-- The `statistics` dict built in `main`: counts, plus min/max of fire
brightness and earthquake magnitude over the very record lists that go
into the document, with `{min: 0, max: 0}` for an empty category. -/
def buildStatistics (fires : List FireEventRecord)
    (earthquakes : List EarthquakeEventRecord) : Statistics where
  total_fires := fires.length
  total_earthquakes := earthquakes.length
  fire_brightness_range :=
    if fires.isEmpty then ⟨0, 0⟩
    else ⟨((fires.map (·.brightness)).min?).getD 0, ((fires.map (·.brightness)).max?).getD 0⟩
  earthquake_magnitude_range :=
    if earthquakes.isEmpty then ⟨0, 0⟩
    else ⟨((earthquakes.map (·.magnitude)).min?).getD 0,
          ((earthquakes.map (·.magnitude)).max?).getD 0⟩

/-- The output dict of `main`, restricted to the fields the claims are
about: the statistics plus the two record lists, taken verbatim from the
producers. -/
def buildDocument (fires : List FireEventRecord)
    (earthquakes : List EarthquakeEventRecord) : ExportDocument where
  statistics := buildStatistics fires earthquakes
  fires := fires
  earthquakes := earthquakes

/-- The numeric value a well-formed field contributes: the `dict.get`
default 0 when the key is absent, the number itself, or the parsed value
of a numeric string (0 as a junk value in the error cases, which
`FloatOk` rules out). -/
def floatValD : Option PyNum → ℚ
  | none => 0
  | some .null => 0
  | some (.num q) => q
  | some (.str s) => (parseFloat s).getD 0

/-- The field survives `float(quake.get(key, 0))` without an exception. -/
def FloatOk (o : Option PyNum) : Prop :=
  pyFloat (o.getD (.num 0)) = .ok (floatValD o)

/-- All four numeric fields of a raw earthquake dict are floatable. -/
def WellFormedQuake (q : RawQuake) : Prop :=
  FloatOk q.latitude ∧ FloatOk q.longitude ∧ FloatOk q.mag ∧ FloatOk q.depth_km

/-- The record §4.4 of the spec prescribes for a raw earthquake record:
defaults for missing fields, rounding, timestamp passed through.  Stated
from the spec's words, to be compared with `normalizeQuake`. -/
def specQuakeRecord (q : RawQuake) : EarthquakeEventRecord where
  lat := roundTo (floatValD q.latitude) 4
  lon := roundTo (floatValD q.longitude) 4
  date := q.time.getD ""
  magnitude := roundTo (floatValD q.mag) 1
  depth := roundTo (floatValD q.depth_km) 1
  place := q.place.getD "Unknown"
  type := q.type.getD "earthquake"

instance (priority := low) {α : Type} [LinearOrder α] : Std.Antisymm ((· : α) ≤ ·) :=
  ⟨fun h₁ h₂ => le_antisymm h₁ h₂⟩

/-- A sample fire detection of the given brightness. -/
def exDet (b : ℚ) : FireDetection where
  latitude := 12
  longitude := 56
  acq_date := ⟨100, 0⟩
  brightness := b
  frp := none
  confidence := .pyNone

/-- A sample fire detection at (12.04, 55.96), same 0.1° cell as `exDet`. -/
def exDet2 : FireDetection where
  latitude := 301/25
  longitude := 1399/25
  acq_date := ⟨100, 0⟩
  brightness := 20
  frp := none
  confidence := .pyNone

/-- A sample fire detection 105 days old on day 100 (acq day −5). -/
def oldDet : FireDetection where
  latitude := 12
  longitude := 56
  acq_date := ⟨-5, 0⟩
  brightness := 300
  frp := none
  confidence := .pyNone

/-- A raw earthquake dict with every key absent. -/
def noneQuake : RawQuake where
  latitude := none
  longitude := none
  time := none
  mag := none
  depth_km := none
  place := none
  type := none

/-- A raw earthquake dict whose `latitude` key holds an unparsable string. -/
def badLatQuake : RawQuake where
  latitude := some (.str "oops")
  longitude := none
  time := none
  mag := none
  depth_km := none
  place := none
  type := none

/-- A raw earthquake dict whose `mag` key is present but holds `None`. -/
def nullMagQuake : RawQuake where
  latitude := none
  longitude := none
  time := none
  mag := some .null
  depth_km := none
  place := none
  type := none

/-- A sample normalized earthquake record of the given magnitude. -/
def exQuake (m : ℚ) : EarthquakeEventRecord where
  lat := 0
  lon := 0
  date := "2026-01-01T00:00:00"
  magnitude := m
  depth := 10
  place := "somewhere"
  type := "earthquake"

example : _confidence_rank (.pyStr "H") = 2 := by decide
example : _confidence_rank .pyNone = 0 := by decide
example : _confidence_rank (.pyStr " NoMiNal ") = 1 := by decide
example : _confidence_rank (.pyNum 45) = 1 := by
  norm_num [_confidence_rank, rankOfScore, CONFIDENCE_THRESHOLDS_high,
    CONFIDENCE_THRESHOLDS_nominal]
example : _confidence_rank (.pyStr "85.5") = 2 := by
  have h : _confidence_rank (.pyStr "85.5")
      = rankOfScore ((digitsToNat ['8', '5'] : ℚ) + (digitsToNat ['5'] : ℚ) / 10 ^ 1) := rfl
  rw [h, show digitsToNat ['8', '5'] = 85 from by decide,
    show digitsToNat ['5'] = 5 from by decide]
  norm_num [rankOfScore, CONFIDENCE_THRESHOLDS_high, CONFIDENCE_THRESHOLDS_nominal]
example : _confidence_rank (.pyStr "garbage") = 0 := by decide
example : parseFloat "-12.25" = some (-49/4) := by
  have h : parseFloat "-12.25"
      = some (-((digitsToNat ['1', '2'] : ℚ) + (digitsToNat ['2', '5'] : ℚ) / 10 ^ 2)) := rfl
  rw [h, show digitsToNat ['1', '2'] = 12 from by decide,
    show digitsToNat ['2', '5'] = 25 from by decide]
  norm_num
example : parseFloat "." = none := by decide
example : roundHalfEven (25/2) = 12 := by norm_num [roundHalfEven, Int.even_iff]
example : roundHalfEven (27/2) = 14 := by norm_num [roundHalfEven, Int.even_iff]
example : roundTo (1234/1000) 1 = 12/10 := by
  norm_num [roundTo, roundHalfEven, Int.even_iff]

/-! ## Helper lemmas -/

theorem rankOfScore_range (q : ℚ) :
    rankOfScore q = 0 ∨ rankOfScore q = 1 ∨ rankOfScore q = 2 := by
  unfold rankOfScore
  split
  · tauto
  split <;> tauto

theorem confidence_rank_range (v : ConfInput) :
    _confidence_rank v = 0 ∨ _confidence_rank v = 1 ∨ _confidence_rank v = 2 := by
  cases v with
  | pyNone => tauto
  | pyNaN => tauto
  | pyOther => tauto
  | pyNum q => exact rankOfScore_range q
  | pyStr s =>
    simp only [_confidence_rank]
    split
    · tauto
    split
    · tauto
    split
    · tauto
    split
    · exact rankOfScore_range _
    · tauto

/-- Claim C1: `_confidence_rank` never raises for any input and returns a rank
in `{0,1,2}` computed as the claim describes: absent/NaN → 0; the keyword
strings matched case-insensitively; any other string parsed as a float
with parse failure → 0; a numeric score ranked by the thresholds 80 and
30; and the three quoted examples. -/
theorem claim_C1 :
    (∀ v : ConfInput,
      _confidence_rank v = 0 ∨ _confidence_rank v = 1 ∨ _confidence_rank v = 2)
    ∧ (∀ q : ℚ, _confidence_rank (.pyNum q)
        = if 80 ≤ q then 2 else if 30 ≤ q then 1 else 0)
    ∧ (∀ s : String, _confidence_rank (.pyStr s)
        = (let n := strLower (strTrim s)
           if n = "high" ∨ n = "h" then 2
           else if n = "nominal" ∨ n = "n" then 1
           else if n = "low" ∨ n = "l" then 0
           else match parseFloat n with
             | some q => if 80 ≤ q then 2 else if 30 ≤ q then 1 else 0
             | none => 0))
    ∧ _confidence_rank .pyNone = 0
    ∧ _confidence_rank .pyNaN = 0
    ∧ _confidence_rank .pyOther = 0
    ∧ _confidence_rank (.pyStr "H") = 2
    ∧ _confidence_rank (.pyNum 45) = 1 := by
  refine ⟨confidence_rank_range, fun q => rfl, fun s => rfl, rfl, rfl, rfl, by decide, ?_⟩
  norm_num [_confidence_rank, rankOfScore, CONFIDENCE_THRESHOLDS_high,
    CONFIDENCE_THRESHOLDS_nominal]


theorem listMax_eq_some_iff {α : Type} [LinearOrder α] {l : List α} {a : α} :
    l.max? = some a ↔ a ∈ l ∧ ∀ b ∈ l, b ≤ a :=
  List.max?_eq_some_iff (fun x => le_refl x) max_choice (fun _ _ _ => max_le_iff)

theorem listMin_eq_some_iff {α : Type} [LinearOrder α] {l : List α} {a : α} :
    l.min? = some a ↔ a ∈ l ∧ ∀ b ∈ l, a ≤ b :=
  List.min?_eq_some_iff (fun x => le_refl x) min_choice (fun _ _ _ => le_min_iff)

theorem tsMax_day (a b : Timestamp) : (tsMax a b).day = max a.day b.day := by
  unfold tsMax tsLe
  split <;> rename_i h
  · rcases h with h | ⟨h, _⟩ <;> omega
  · have h1 : ¬ a.day < b.day := fun hlt => h (Or.inl hlt)
    omega

theorem tsMin_day (a b : Timestamp) : (tsMin a b).day = min a.day b.day := by
  unfold tsMin tsLe
  split <;> rename_i h
  · rcases h with h | ⟨h, _⟩ <;> omega
  · have h1 : ¬ a.day < b.day := fun hlt => h (Or.inl hlt)
    omega

theorem foldl_tsMax_day (t : Timestamp) (ts : List Timestamp) :
    (ts.foldl tsMax t).day = (ts.map (·.day)).foldl max t.day := by
  induction ts generalizing t with
  | nil => rfl
  | cons u us ih =>
    simp only [List.foldl_cons, List.map_cons]
    rw [ih, tsMax_day]

theorem foldl_tsMin_day (t : Timestamp) (ts : List Timestamp) :
    (ts.foldl tsMin t).day = (ts.map (·.day)).foldl min t.day := by
  induction ts generalizing t with
  | nil => rfl
  | cons u us ih =>
    simp only [List.foldl_cons, List.map_cons]
    rw [ih, tsMin_day]

theorem tsListMax_day (l : List Timestamp) :
    (tsListMax l).map (·.day) = (l.map (·.day)).max? := by
  cases l with
  | nil => rfl
  | cons t ts =>
    simp only [tsListMax, List.map_cons, Option.map_some']
    rw [List.max?_cons']
    exact congrArg some (foldl_tsMax_day t ts)

theorem tsListMin_day (l : List Timestamp) :
    (tsListMin l).map (·.day) = (l.map (·.day)).min? := by
  cases l with
  | nil => rfl
  | cons t ts =>
    simp only [tsListMin, List.map_cons, Option.map_some']
    rw [List.min?_cons']
    exact congrArg some (foldl_tsMin_day t ts)

theorem roundHalfEven_intCast (n : ℤ) : roundHalfEven (n : ℚ) = n := by
  simp only [roundHalfEven, Int.floor_intCast]
  norm_num

theorem gridSnap_idem (x : ℚ) : gridSnap (gridSnap x) = gridSnap x := by
  unfold gridSnap
  rw [div_mul_cancel₀ _ (by norm_num : (10 : ℚ) ≠ 0), roundHalfEven_intCast]

/-- Claim C3: grid assignment is the pure function `round(coord * 10) / 10`
applied to each coordinate (so every detection has exactly one cell key),
it is idempotent, detections whose scaled coordinates round equal share a
cell key, and re-running the aggregation on identical input yields the
identical result. -/
theorem claim_C3 (d e : FireDetection) :
    (∀ x : ℚ, gridSnap (gridSnap x) = gridSnap x)
    ∧ gridKey d = (gridSnap d.latitude, gridSnap d.longitude)
    ∧ (roundHalfEven (d.latitude * 10) = roundHalfEven (e.latitude * 10) →
       roundHalfEven (d.longitude * 10) = roundHalfEven (e.longitude * 10) →
       gridKey d = gridKey e)
    ∧ (∀ (data : Option (List FireDetection)) (today : ℤ) (days : ℕ),
        export_fire_events data today days = export_fire_events data today days) := by
  refine ⟨gridSnap_idem, rfl, fun h1 h2 => ?_, fun _ _ _ => rfl⟩
  unfold gridKey gridSnap
  rw [h1, h2]

/-- Witness for claim C3 at detections (12.04, 55.96) and (12, 56): the scaled
coordinates round to the same integers, so the cell keys coincide. -/
theorem claim_C3_witness :
    roundHalfEven ((exDet2).latitude * 10) = roundHalfEven ((exDet 10).latitude * 10)
    ∧ roundHalfEven ((exDet2).longitude * 10) = roundHalfEven ((exDet 10).longitude * 10)
    ∧ gridKey exDet2 = gridKey (exDet 10) := by
  have h1 : roundHalfEven ((exDet2).latitude * 10) = roundHalfEven ((exDet 10).latitude * 10) := by
    norm_num [exDet2, exDet, roundHalfEven, Int.even_iff]
  have h2 : roundHalfEven ((exDet2).longitude * 10) = roundHalfEven ((exDet 10).longitude * 10) := by
    norm_num [exDet2, exDet, roundHalfEven, Int.even_iff]
  exact ⟨h1, h2, (claim_C3 exDet2 (exDet 10)).2.2.1 h1 h2⟩

/-- Claim C4: the recency filter compares calendar days only: membership in the
filtered table is equivalent to membership in the raw table together with
`cutoff ≤ acq day` (no mention of time-of-day), the boundary day
`today − days` is kept, and `today − days − 1` is dropped. -/
theorem claim_C4 (today : ℤ) (days : ℕ) (rows : List FireDetection) (d : FireDetection) :
    (d ∈ recentFires rows today days ↔ d ∈ rows ∧ today - days ≤ d.acq_date.day)
    ∧ (d ∈ rows → d.acq_date.day = today - days → d ∈ recentFires rows today days)
    ∧ (d.acq_date.day = today - days - 1 → d ∉ recentFires rows today days) := by
  have hmem : d ∈ recentFires rows today days ↔ d ∈ rows ∧ today - days ≤ d.acq_date.day := by
    simp [recentFires, List.mem_filter]
  refine ⟨hmem, fun hd hday => hmem.mpr ⟨hd, by omega⟩, fun hday hcon => ?_⟩
  have h2 := (hmem.mp hcon).2
  omega

/-- Witness for claim C4: a detection dated day 100 is kept when the cutoff is
exactly 100 (`today = 190`, `days = 90`) and dropped when the cutoff is 101
(`today = 191`, `days = 90`). -/
theorem claim_C4_witness :
    exDet 10 ∈ recentFires [exDet 10] 190 90
    ∧ exDet 10 ∉ recentFires [exDet 10] 191 90 :=
  ⟨(claim_C4 190 90 [exDet 10] (exDet 10)).2.1 (List.mem_singleton.mpr rfl) (by decide),
   (claim_C4 191 90 [exDet 10] (exDet 10)).2.2 (by decide)⟩

/-- Claim C9: `_format_date` is total (never raises) and returns: `""` on
`None`/NaN, only the calendar-date part of a `datetime` (whatever its
time-of-day), the ISO string of any other ISO-convertible value, and the
`str()` cast otherwise. -/
theorem claim_C9 :
    _format_date .pyNone = ""
    ∧ _format_date .pyNaN = ""
    ∧ (∀ ds ts : String, _format_date (.pyDatetime ds ts) = ds)
    ∧ (∀ ds ts ts' : String,
        _format_date (.pyDatetime ds ts) = _format_date (.pyDatetime ds ts'))
    ∧ (∀ s : String, _format_date (.pyIsoObj s) = s)
    ∧ (∀ s : String, _format_date (.pyOther s) = s) :=
  ⟨rfl, rfl, fun _ _ => rfl, fun _ _ _ => rfl, fun _ => rfl, fun _ => rfl⟩

/-- Claim C7: zero input is never an error: no FIRMS table, an empty FIRMS
table, or a table emptied by the recency filter all yield `[]`, and an
empty earthquake result yields `[]` (no exception). -/
theorem claim_C7 (today : ℤ) (days : ℕ) :
    export_fire_events none today days = []
    ∧ export_fire_events (some []) today days = []
    ∧ (∀ rows, recentFires rows today days = [] →
        export_fire_events (some rows) today days = [])
    ∧ export_earthquake_events [] = .ok [] := by
  refine ⟨rfl, rfl, fun rows h => ?_, rfl⟩
  cases rows with
  | nil => rfl
  | cons a as => simp [export_fire_events, h]

/-- Witness for claim C7: a table whose only detection is 105 days old is
emptied by a 90-day window and exports no records. -/
theorem claim_C7_witness :
    recentFires [oldDet] 100 90 = []
    ∧ export_fire_events (some [oldDet]) 100 90 = [] := by
  have h : recentFires [oldDet] 100 90 = [] := by decide
  exact ⟨h, (claim_C7 100 90).2.2.1 [oldDet] h⟩

/-- Claim C2: for a non-empty grid-cell group, the emitted record carries the
maximum brightness (rounded to 1 decimal like every brightness field), the
mean brightness, the member count, the maximum non-null `frp` (null exactly
when every member's `frp` is null), the minimum acquisition day as
`date_first`, the maximum acquisition day as `date`, and the label of the
maximum confidence rank. -/
theorem claim_C2 (k : ℚ × ℚ) (members : List FireDetection) (hne : members ≠ []) :
    (∃ b ∈ members.map (·.brightness),
      (∀ x ∈ members.map (·.brightness), x ≤ b)
      ∧ (mkFireRecord k members).brightness = roundTo b 1)
    ∧ (mkFireRecord k members).brightness_avg
        = roundTo ((members.map (·.brightness)).sum / (members.length : ℚ)) 1
    ∧ (mkFireRecord k members).count = members.length
    ∧ ((mkFireRecord k members).frp = none ↔ ∀ d ∈ members, d.frp = none)
    ∧ (∀ m : ℚ, m ∈ members.filterMap (·.frp) →
        (∀ x ∈ members.filterMap (·.frp), x ≤ m) →
        (mkFireRecord k members).frp = some (roundTo m 1))
    ∧ ((mkFireRecord k members).date ∈ members.map (fun d => d.acq_date.day)
      ∧ ∀ u ∈ members.map (fun d => d.acq_date.day), u ≤ (mkFireRecord k members).date)
    ∧ ((mkFireRecord k members).date_first ∈ members.map (fun d => d.acq_date.day)
      ∧ ∀ u ∈ members.map (fun d => d.acq_date.day), (mkFireRecord k members).date_first ≤ u)
    ∧ (∃ n ∈ members.map (fun d => _confidence_rank d.confidence),
        (∀ x ∈ members.map (fun d => _confidence_rank d.confidence), x ≤ n)
        ∧ (mkFireRecord k members).confidence = CONFIDENCE_LABELS n) := by
  obtain ⟨b, hb⟩ : ∃ b, (members.map (·.brightness)).max? = some b := by
    cases hx : (members.map (·.brightness)).max? with
    | none => exact absurd (List.map_eq_nil_iff.mp (List.max?_eq_none_iff.mp hx)) hne
    | some b => exact ⟨b, rfl⟩
  have hbc := listMax_eq_some_iff.mp hb
  obtain ⟨n, hn⟩ : ∃ n, (members.map (fun d => _confidence_rank d.confidence)).max? = some n := by
    cases hx : (members.map (fun d => _confidence_rank d.confidence)).max? with
    | none => exact absurd (List.map_eq_nil_iff.mp (List.max?_eq_none_iff.mp hx)) hne
    | some n => exact ⟨n, rfl⟩
  have hnc := listMax_eq_some_iff.mp hn
  obtain ⟨T, hT⟩ : ∃ T, tsListMax (members.map (·.acq_date)) = some T := by
    cases hl : members.map (·.acq_date) with
    | nil => exact absurd (List.map_eq_nil_iff.mp hl) hne
    | cons t ts => exact ⟨ts.foldl tsMax t, rfl⟩
  obtain ⟨S, hS⟩ : ∃ S, tsListMin (members.map (·.acq_date)) = some S := by
    cases hl : members.map (·.acq_date) with
    | nil => exact absurd (List.map_eq_nil_iff.mp hl) hne
    | cons t ts => exact ⟨ts.foldl tsMin t, rfl⟩
  have hTday : ((members.map (·.acq_date)).map (·.day)).max? = some T.day := by
    rw [← tsListMax_day, hT]; rfl
  have hSday : ((members.map (·.acq_date)).map (·.day)).min? = some S.day := by
    rw [← tsListMin_day, hS]; rfl
  rw [List.map_map] at hTday hSday
  have hTc := listMax_eq_some_iff.mp hTday
  have hSc := listMin_eq_some_iff.mp hSday
  refine ⟨⟨b, hbc.1, hbc.2, ?_⟩, rfl, rfl, ?_, ?_, ⟨?_, ?_⟩, ⟨?_, ?_⟩, ⟨n, hnc.1, hnc.2, ?_⟩⟩
  · simp [mkFireRecord, hb]
  · simp [mkFireRecord, Option.map_eq_none', List.max?_eq_none_iff, List.filterMap_eq_nil_iff]
  · intro m hm hub
    have hmx : (members.filterMap (·.frp)).max? = some m := listMax_eq_some_iff.mpr ⟨hm, hub⟩
    simp [mkFireRecord, hmx]
  · show ((tsListMax (members.map (·.acq_date))).getD ⟨0, 0⟩).day ∈ _
    rw [hT]
    exact hTc.1
  · intro u hu
    show u ≤ ((tsListMax (members.map (·.acq_date))).getD ⟨0, 0⟩).day
    rw [hT]
    exact hTc.2 u hu
  · show ((tsListMin (members.map (·.acq_date))).getD ⟨0, 0⟩).day ∈ _
    rw [hS]
    exact hSc.1
  · intro u hu
    show ((tsListMin (members.map (·.acq_date))).getD ⟨0, 0⟩).day ≤ u
    rw [hS]
    exact hSc.2 u hu
  · simp [mkFireRecord, hn]

/-- Witness for claim C2: a cell with brightnesses `[10, 20, 30]` yields
`brightness = 30`, `brightness_avg = 20`, `count = 3`. -/
theorem claim_C2_witness :
    ([exDet 10, exDet 20, exDet 30] ≠ ([] : List FireDetection))
    ∧ (mkFireRecord (12, 56) [exDet 10, exDet 20, exDet 30]).count = 3
    ∧ (mkFireRecord (12, 56) [exDet 10, exDet 20, exDet 30]).brightness = 30
    ∧ (mkFireRecord (12, 56) [exDet 10, exDet 20, exDet 30]).brightness_avg = 20 := by
  refine ⟨List.cons_ne_nil _ _,
    (claim_C2 (12, 56) [exDet 10, exDet 20, exDet 30] (List.cons_ne_nil _ _)).2.2.1, ?_, ?_⟩
  · have h1 : ([exDet 10, exDet 20, exDet 30].map (·.brightness)) = [10, 20, 30] := rfl
    have h2 : ([10, 20, 30] : List ℚ).max? = some 30 := by
      rw [List.max?_cons']
      norm_num [List.foldl, max_def]
    simp only [mkFireRecord, h1, h2, Option.getD_some]
    norm_num [roundTo, roundHalfEven, Int.even_iff]
  · have h1 : ([exDet 10, exDet 20, exDet 30].map (·.brightness)) = [10, 20, 30] := rfl
    simp only [mkFireRecord, h1]
    norm_num [roundTo, roundHalfEven, Int.even_iff]

theorem countP_decide_eq_count {β : Type} [DecidableEq β] (L : List β) (k : β) :
    L.countP (fun b => decide (b = k)) = L.count k := by
  rw [List.count_eq_countP]
  exact List.countP_congr (fun b _ => by simp)

theorem sum_filter_length_dedup {α β : Type} [DecidableEq β] (f : α → β) (l : List α) :
    (((l.map f).dedup).map
        (fun k => (l.filter (fun a => decide (f a = k))).length)).sum = l.length := by
  have h1 : ∀ k : β, (l.filter (fun a => decide (f a = k))).length
      = (l.map f).count k := by
    intro k
    rw [← List.countP_eq_length_filter, ← countP_decide_eq_count, List.countP_map]
    rfl
  calc (((l.map f).dedup).map (fun k => (l.filter (fun a => decide (f a = k))).length)).sum
      = (((l.map f).dedup).map (fun k => (l.map f).count k)).sum := by
        exact congrArg List.sum (List.map_congr_left (fun k _ => h1 k))
    _ = (l.map f).length := List.sum_map_count_dedup_eq_length (l.map f)
    _ = l.length := List.length_map l f

/-- Claim C10: the grid cells partition the filtered detections: the counts of
the emitted records sum to the number of detections passing the recency
filter, and every emitted record has `count ≥ 1`. -/
theorem claim_C10 (rows : List FireDetection) (today : ℤ) (days : ℕ) :
    ((export_fire_events (some rows) today days).map (·.count)).sum
      = (recentFires rows today days).length
    ∧ ∀ r ∈ export_fire_events (some rows) today days, 1 ≤ r.count := by
  constructor
  · cases rows with
    | nil => rfl
    | cons a as =>
      cases hrec : (recentFires (a :: as) today days).isEmpty with
      | true =>
        rw [List.isEmpty_iff] at hrec
        simp [export_fire_events, hrec]
      | false =>
        simp only [export_fire_events, hrec, List.isEmpty_cons, Bool.false_eq_true, if_false,
          List.map_map]
        exact sum_filter_length_dedup gridKey (recentFires (a :: as) today days)
  · intro r hr
    cases rows with
    | nil => exact absurd hr (by simp [export_fire_events])
    | cons a as =>
      cases hrec : (recentFires (a :: as) today days).isEmpty with
      | true =>
        rw [List.isEmpty_iff] at hrec
        simp [export_fire_events, hrec] at hr
      | false =>
        simp only [export_fire_events, hrec, List.isEmpty_cons, Bool.false_eq_true,
          if_false] at hr
        obtain ⟨k, hk, rfl⟩ := List.mem_map.mp hr
        obtain ⟨d, hd, hdk⟩ := List.mem_map.mp (List.mem_dedup.mp hk)
        have hmem : d ∈ (recentFires (a :: as) today days).filter
            (fun d' => decide (gridKey d' = k)) :=
          List.mem_filter.mpr ⟨hd, by simp [hdk]⟩
        have hpos : 0 < ((recentFires (a :: as) today days).filter
            (fun d' => decide (gridKey d' = k))).length :=
          List.length_pos.mpr (List.ne_nil_of_mem hmem)
        simpa [mkFireRecord] using hpos

/-- Witness for claim C10: a single in-window detection exports one record of
count 1, and the counts sum to the filtered length. -/
theorem claim_C10_witness :
    ((export_fire_events (some [exDet 10]) 100 90).map (·.count)).sum
      = (recentFires [exDet 10] 100 90).length
    ∧ 1 ≤ (mkFireRecord (gridKey (exDet 10)) [exDet 10]).count := by
  have hrec : recentFires [exDet 10] 100 90 = [exDet 10] := by decide
  have hded : ([gridKey (exDet 10)] : List (ℚ × ℚ)).dedup = [gridKey (exDet 10)] := by
    simp
  have hfil : [exDet 10].filter (fun d => decide (gridKey d = gridKey (exDet 10)))
      = [exDet 10] := by simp
  have hstep : export_fire_events (some [exDet 10]) 100 90
      = [mkFireRecord (gridKey (exDet 10)) [exDet 10]] := by
    simp only [export_fire_events, hrec, List.isEmpty_cons, Bool.false_eq_true, if_false,
      List.map_cons, List.map_nil, hded, hfil]
  have hmem : mkFireRecord (gridKey (exDet 10)) [exDet 10]
      ∈ export_fire_events (some [exDet 10]) 100 90 := by
    rw [hstep]
    exact List.mem_singleton.mpr rfl
  exact ⟨(claim_C10 [exDet 10] 100 90).1,
    (claim_C10 [exDet 10] 100 90).2 _ hmem⟩

theorem roundTo_zero (d : ℕ) : roundTo 0 d = 0 := by
  norm_num [roundTo, roundHalfEven]

theorem normalizeQuake_ok (q : RawQuake) (h : WellFormedQuake q) :
    normalizeQuake q = .ok (specQuakeRecord q) := by
  obtain ⟨h1, h2, h3, h4⟩ := h
  unfold FloatOk at h1 h2 h3 h4
  simp only [normalizeQuake, h1, h2, h3, h4]
  rfl

theorem mapM_normalizeQuake_ok (l : List RawQuake) (h : ∀ q ∈ l, WellFormedQuake q) :
    l.mapM normalizeQuake = .ok (l.map specQuakeRecord) := by
  induction l with
  | nil => rfl
  | cons a as ih =>
    simp only [List.mapM_cons, normalizeQuake_ok a (h a (List.mem_cons_self a as)),
      ih (fun q hq => h q (List.mem_cons_of_mem a hq)), List.map_cons]
    rfl

/-- Claim C5 (amended): for every sequence of raw records whose *present*
numeric fields are all floatable, the normalizer produces exactly one
record per raw record, in order, with the defensive defaults (missing
latitude/longitude/magnitude/depth contribute the default 0, missing
place/type get "Unknown"/"earthquake", the timestamp passes through
unmodified); a present null or unparsable numeric field instead raises
(see the counterexample). -/
theorem claim_C5 (raws : List RawQuake) (h : ∀ q ∈ raws, WellFormedQuake q) :
    export_earthquake_events raws = .ok (raws.map specQuakeRecord)
    ∧ (∀ q : RawQuake,
        (specQuakeRecord q).lat = roundTo (floatValD q.latitude) 4
        ∧ (specQuakeRecord q).lon = roundTo (floatValD q.longitude) 4
        ∧ (specQuakeRecord q).date = q.time.getD ""
        ∧ (specQuakeRecord q).magnitude = roundTo (floatValD q.mag) 1
        ∧ (specQuakeRecord q).depth = roundTo (floatValD q.depth_km) 1
        ∧ (specQuakeRecord q).place = q.place.getD "Unknown"
        ∧ (specQuakeRecord q).type = q.type.getD "earthquake")
    ∧ floatValD none = 0 := by
  refine ⟨?_, fun q => ⟨rfl, rfl, rfl, rfl, rfl, rfl, rfl⟩, rfl⟩
  cases raws with
  | nil => rfl
  | cons a as =>
    simp only [export_earthquake_events, List.isEmpty_cons, Bool.false_eq_true, if_false]
    exact mapM_normalizeQuake_ok (a :: as) h

/-- Counterexample for claim C5 as frozen: a raw record whose `latitude` key
holds the unparsable string `"oops"` makes the exporter raise
(`ValueError`) instead of producing a record. -/
theorem claim_C5_counterexample :
    export_earthquake_events [badLatQuake] = .error .valueError := by
  rfl

/-- Witness for claim C5: a record with every key missing is well-formed and
normalizes to the all-defaults record. -/
theorem claim_C5_witness :
    export_earthquake_events [noneQuake] = .ok ([noneQuake].map specQuakeRecord) := by
  refine (claim_C5 [noneQuake] ?_).1
  intro q hq
  rw [List.mem_singleton.mp hq]
  exact ⟨rfl, rfl, rfl, rfl⟩

/-- Claim C8 (amended): a malformed confidence value on the fire side resolves
to rank 0 without raising (and NaN or non-castable objects likewise);
on the earthquake side only *absent* numeric fields get the safe default
0.0 — a present null numeric field raises `TypeError` and a present
unparsable string raises `ValueError`, aborting the export instead of
being resolved. -/
theorem claim_C8 :
    (∀ s : String,
      ¬(strLower (strTrim s) = "high" ∨ strLower (strTrim s) = "h") →
      ¬(strLower (strTrim s) = "nominal" ∨ strLower (strTrim s) = "n") →
      ¬(strLower (strTrim s) = "low" ∨ strLower (strTrim s) = "l") →
      parseFloat (strLower (strTrim s)) = none →
      _confidence_rank (.pyStr s) = 0)
    ∧ _confidence_rank .pyNaN = 0
    ∧ _confidence_rank .pyOther = 0
    ∧ normalizeQuake noneQuake
        = .ok { lat := 0, lon := 0, date := "", magnitude := 0, depth := 0,
                place := "Unknown", type := "earthquake" }
    ∧ (∀ q : RawQuake, q.mag = some .null → ∃ e, normalizeQuake q = .error e)
    ∧ (∀ s : String, parseFloat s = none →
        normalizeQuake { latitude := some (.str s), longitude := none, time := none,
                         mag := none, depth_km := none, place := none, type := none }
          = .error .valueError) := by
  refine ⟨?_, rfl, rfl, ?_, ?_, ?_⟩
  · intro s hh hn hl hp
    simp only [_confidence_rank, if_neg hh, if_neg hn, if_neg hl, hp]
  · have h0 : normalizeQuake noneQuake
        = .ok { lat := roundTo 0 4, lon := roundTo 0 4, date := "", magnitude := roundTo 0 1,
                depth := roundTo 0 1, place := "Unknown", type := "earthquake" } := rfl
    rw [h0, roundTo_zero, roundTo_zero]
  · intro q hq
    unfold normalizeQuake
    cases hla : pyFloat (q.latitude.getD (.num 0)) with
    | error e => exact ⟨e, rfl⟩
    | ok la =>
      cases hlo : pyFloat (q.longitude.getD (.num 0)) with
      | error e => exact ⟨e, rfl⟩
      | ok lo => exact ⟨.typeError, by rw [hq]; rfl⟩
  · intro s hs
    simp only [normalizeQuake, Option.getD_some, pyFloat, hs]
    rfl

/-- Counterexample for claim C8 as frozen: a raw earthquake record whose `mag`
key is present but null makes the exporter raise `TypeError` (and so abort
the run) instead of resolving the field to a safe default. -/
theorem claim_C8_counterexample :
    export_earthquake_events [nullMagQuake] = .error .typeError := by
  rfl

/-- Witness for claim C8: the string `"bad"` (not a keyword, not parsable)
resolves to rank 0 on the fire side, while a latitude holding `"bad"`
raises `ValueError` on the earthquake side. -/
theorem claim_C8_witness :
    _confidence_rank (.pyStr "bad") = 0
    ∧ normalizeQuake { latitude := some (.str "bad"), longitude := none, time := none,
                       mag := none, depth_km := none, place := none, type := none }
        = .error .valueError :=
  ⟨(claim_C8).1 "bad" (by decide) (by decide) (by decide) (by decide),
   (claim_C8).2.2.2.2.2 "bad" (by decide)⟩

/-- Claim C6: the statistics ranges of an assembled document are the min/max of
exactly the records stored in the same document, and an empty category
yields the range `{min: 0, max: 0}` (a value, never omitted or null —
the field is total in the schema). -/
theorem claim_C6 (fires : List FireEventRecord) (earthquakes : List EarthquakeEventRecord) :
    (buildDocument fires earthquakes).fires = fires
    ∧ (buildDocument fires earthquakes).earthquakes = earthquakes
    ∧ (buildDocument fires earthquakes).statistics.total_fires = fires.length
    ∧ (buildDocument fires earthquakes).statistics.total_earthquakes = earthquakes.length
    ∧ (fires = [] →
        (buildDocument fires earthquakes).statistics.fire_brightness_range = ⟨0, 0⟩)
    ∧ (earthquakes = [] →
        (buildDocument fires earthquakes).statistics.earthquake_magnitude_range = ⟨0, 0⟩)
    ∧ (fires ≠ [] →
        ((buildDocument fires earthquakes).statistics.fire_brightness_range.min
            ∈ fires.map (·.brightness)
          ∧ (∀ x ∈ fires.map (·.brightness),
              (buildDocument fires earthquakes).statistics.fire_brightness_range.min ≤ x)
          ∧ (buildDocument fires earthquakes).statistics.fire_brightness_range.max
              ∈ fires.map (·.brightness)
          ∧ (∀ x ∈ fires.map (·.brightness),
              x ≤ (buildDocument fires earthquakes).statistics.fire_brightness_range.max)))
    ∧ (earthquakes ≠ [] →
        ((buildDocument fires earthquakes).statistics.earthquake_magnitude_range.min
            ∈ earthquakes.map (·.magnitude)
          ∧ (∀ x ∈ earthquakes.map (·.magnitude),
              (buildDocument fires earthquakes).statistics.earthquake_magnitude_range.min ≤ x)
          ∧ (buildDocument fires earthquakes).statistics.earthquake_magnitude_range.max
              ∈ earthquakes.map (·.magnitude)
          ∧ (∀ x ∈ earthquakes.map (·.magnitude),
              x ≤ (buildDocument fires earthquakes).statistics.earthquake_magnitude_range.max))) := by
  refine ⟨rfl, rfl, rfl, rfl, fun h => by subst h; rfl, fun h => by subst h; rfl, ?_, ?_⟩
  · intro h
    have hie : fires.isEmpty = false := by
      cases hx : fires.isEmpty with
      | true => exact absurd (List.isEmpty_iff.mp hx) h
      | false => rfl
    obtain ⟨mn, hmn⟩ : ∃ mn, (fires.map (·.brightness)).min? = some mn := by
      cases hx : (fires.map (·.brightness)).min? with
      | none => exact absurd (List.map_eq_nil_iff.mp (List.min?_eq_none_iff.mp hx)) h
      | some mn => exact ⟨mn, rfl⟩
    obtain ⟨mx, hmx⟩ : ∃ mx, (fires.map (·.brightness)).max? = some mx := by
      cases hx : (fires.map (·.brightness)).max? with
      | none => exact absurd (List.map_eq_nil_iff.mp (List.max?_eq_none_iff.mp hx)) h
      | some mx => exact ⟨mx, rfl⟩
    have hmnc := listMin_eq_some_iff.mp hmn
    have hmxc := listMax_eq_some_iff.mp hmx
    simp only [buildDocument, buildStatistics, hie, Bool.false_eq_true, if_false, hmn, hmx,
      Option.getD_some]
    exact ⟨hmnc.1, hmnc.2, hmxc.1, hmxc.2⟩
  · intro h
    have hie : earthquakes.isEmpty = false := by
      cases hx : earthquakes.isEmpty with
      | true => exact absurd (List.isEmpty_iff.mp hx) h
      | false => rfl
    obtain ⟨mn, hmn⟩ : ∃ mn, (earthquakes.map (·.magnitude)).min? = some mn := by
      cases hx : (earthquakes.map (·.magnitude)).min? with
      | none => exact absurd (List.map_eq_nil_iff.mp (List.min?_eq_none_iff.mp hx)) h
      | some mn => exact ⟨mn, rfl⟩
    obtain ⟨mx, hmx⟩ : ∃ mx, (earthquakes.map (·.magnitude)).max? = some mx := by
      cases hx : (earthquakes.map (·.magnitude)).max? with
      | none => exact absurd (List.map_eq_nil_iff.mp (List.max?_eq_none_iff.mp hx)) h
      | some mx => exact ⟨mx, rfl⟩
    have hmnc := listMin_eq_some_iff.mp hmn
    have hmxc := listMax_eq_some_iff.mp hmx
    simp only [buildDocument, buildStatistics, hie, Bool.false_eq_true, if_false, hmn, hmx,
      Option.getD_some]
    exact ⟨hmnc.1, hmnc.2, hmxc.1, hmxc.2⟩

/-- Witness for claim C6: two earthquakes with magnitudes `[3.1, 5.8]` give
`earthquake_magnitude_range = {min: 3.1, max: 5.8}`. -/
theorem claim_C6_witness :
    ([exQuake (31/10), exQuake (29/5)] ≠ ([] : List EarthquakeEventRecord))
    ∧ (buildDocument [] [exQuake (31/10), exQuake (29/5)]).statistics.earthquake_magnitude_range.min
        ∈ [exQuake (31/10), exQuake (29/5)].map (·.magnitude)
    ∧ (buildDocument [] [exQuake (31/10), exQuake (29/5)]).statistics.earthquake_magnitude_range
        = ⟨31/10, 29/5⟩ := by
  have h := (claim_C6 [] [exQuake (31/10), exQuake (29/5)]).2.2.2.2.2.2.2 (List.cons_ne_nil _ _)
  refine ⟨List.cons_ne_nil _ _, h.1, ?_⟩
  have hmap : [exQuake (31/10), exQuake (29/5)].map (·.magnitude) = [31/10, 29/5] := rfl
  have hmin : ([31/10, 29/5] : List ℚ).min? = some (31/10) := by
    rw [List.min?_cons']
    norm_num [List.foldl, min_def]
  have hmax : ([31/10, 29/5] : List ℚ).max? = some (29/5) := by
    rw [List.max?_cons']
    norm_num [List.foldl, max_def]
  simp [buildDocument, buildStatistics, hmap, hmin, hmax]
